import Mathlib

/-!
Verification of the equilibrium-solver core of the economic-model scripts in
`GraphsCode.py` (Keynesian cross, LM money market, FX interest parity, DD-AA,
IS-LM).  Each Python computation is embedded shallowly: exact rational
arithmetic replaces floats, Python scalar division (which raises
`ZeroDivisionError` on a zero divisor) is embedded through `Except`, and the
float `nan` sentinel used by the FX solver is embedded as `Option.none`.
-/

namespace EconDyn

/-- Errors a Python scalar arithmetic expression can raise. -/
inductive PyErr where
  | zeroDivision
deriving DecidableEq

/-- Python scalar division: raises `ZeroDivisionError` on a zero divisor,
otherwise returns the exact quotient. -/
def pydiv (a b : ℚ) : Except PyErr ℚ :=
  if b = 0 then Except.error PyErr.zeroDivision else Except.ok (a / b)

/-- `np.linspace a b n`: `n` evenly spaced samples from `a` to `b`. -/
def linspace (a b : ℚ) (n : ℕ) : List ℚ :=
  (List.range n).map (fun j => a + (j : ℚ) * ((b - a) / ((n : ℚ) - 1)))

/-- `np.sign` on exact rationals. -/
def qsign (x : ℚ) : ℤ :=
  if x < 0 then -1 else if 0 < x then 1 else 0

/-! ## Goods market (Keynesian cross), `crear_grafica_mercado_bienes.dibujar_grafica` -/

/-- Numeric outputs of the goods-market drawing callback. -/
structure BienesResultado where
  alpha : ℚ
  A : ℚ
  Y_eq : ℚ
  Y_range : List ℚ
  DA : List ℚ
deriving DecidableEq

/-- The computation of `dibujar_grafica(g0, t1, i0, nx0)` in the goods-market
script: fixed constants `c0 = 50`, `c1 = 0.6`; multiplier `alpha = 1/(1 - c1*(1-t1))`
(an unguarded Python scalar division); autonomous spending `A`; equilibrium
income `Y_eq = alpha * A`; aggregate-expenditure curve over `linspace 0 2500 100`. -/
def mercado_bienes (g0 t1 i0 nx0 : ℚ) : Except PyErr BienesResultado := do
  let c0 : ℚ := 50
  let c1 : ℚ := 3/5
  let alpha ← pydiv 1 (1 - c1 * (1 - t1))
  let A : ℚ := c0 + i0 + g0 + nx0
  let Y_eq := alpha * A
  let Y_range := linspace 0 2500 100
  let DA := Y_range.map (fun Y => A + c1 * (1 - t1) * Y)
  return ⟨alpha, A, Y_eq, Y_range, DA⟩

/-! ## Money market (LM), `crear_grafica_mercado_dinero.dibujar_grafica` -/

/-- Numeric outputs of the money-market drawing callback. -/
structure DineroResultado where
  Ms_real : ℚ
  i_eq : ℚ
  i_range : List ℚ
  Md : List ℚ
deriving DecidableEq

/-- The computation of `dibujar_grafica(Ms, Y, P)` in the money-market script:
fixed constants `k = 0.5`, `h = 10`; real money supply `Ms/P` (an unguarded
Python scalar division); equilibrium rate `i_eq = (k*Y - Ms/P)/h`; money-demand
curve over `linspace 0 50 100`. -/
def mercado_dinero (Ms Y P : ℚ) : Except PyErr DineroResultado := do
  let k : ℚ := 1/2
  let h : ℚ := 10
  let Ms_real ← pydiv Ms P
  let i_eq := (k * Y - Ms_real) / h
  let i_range := linspace 0 50 100
  let Md := i_range.map (fun i => k * Y - h * i)
  return ⟨Ms_real, i_eq, i_range, Md⟩

/-! ## FX market (interest parity, linearized),
`crear_grafica_mercado_divisas.dibujar_grafica` -/

/-- Numeric outputs of the FX-market drawing callback.  `E_eq = none` embeds
the `float('nan')` sentinel the script assigns when `m == 0`. -/
structure DivisasResultado where
  E_range : List ℚ
  r_ext_line : List ℚ
  E_eq : Option ℚ
deriving DecidableEq

/-- The computation of `dibujar_grafica(R_val, R_star_val, Ee_val)` in the FX
script (slope `m` closed over from the enclosing call): foreign-return line
`R_ext(E) = R_star + m*(Ee - E)` over `linspace 0 10 100`; equilibrium
`E_eq = Ee - (R - R_star)/m` guarded by an explicit `m != 0` branch, with
`nan` (here `none`) otherwise. -/
def mercado_divisas (R R_star Ee m : ℚ) : DivisasResultado :=
  let E_range := linspace 0 10 100
  let r_ext_line := E_range.map (fun E => R_star + m * (Ee - E))
  let E_eq := if m ≠ 0 then some (Ee - (R - R_star) / m) else none
  ⟨E_range, r_ext_line, E_eq⟩

/-! ## DD-AA model, `crear_grafica_dd_aa.dibujar_grafica` -/

/-- The income grid `np.linspace(500, 2500, 200)`, pointwise. -/
def Ygrid (i : ℕ) : ℚ := 500 + (i : ℚ) * (2000 / 199)

/-- `multiplicador_inv = 1 - c1*(1 - T) + m` with `c1 = 0.6`, `m = 0.1`. -/
def ddMultInv (T : ℚ) : ℚ := 1 - (3/5) * (1 - T) + 1/10

/-- `gasto_autonomo = c0 + I0 + G + NX0` with `c0 = 50`, `I0 = 150`, `NX0 = -50`. -/
def ddGastoAut (G : ℚ) : ℚ := 50 + 150 + G + (-50)

/-- The DD curve sample `E_dd = (Y*multiplicador_inv - gasto_autonomo)/q`, `q = 100`. -/
def E_dd (G T : ℚ) (i : ℕ) : ℚ := (Ygrid i * ddMultInv T - ddGastoAut G) / 100

/-- The interest-rate curve `R = (k*Y - Ms/P)/h` with `k = 0.25`, `h = 20`. -/
def aaR (Ms P : ℚ) (i : ℕ) : ℚ := ((1/4) * Ygrid i - Ms / P) / 20

/-- The AA denominator `1 + R/100 - R_star/100`. -/
def aaDenom (Ms P R_star : ℚ) (i : ℕ) : ℚ := 1 + aaR Ms P i / 100 - R_star / 100

/-- The AA curve sample `E_aa = Ee / (1 + R/100 - R_star/100)` (unguarded
numpy division; the embedding is faithful where the denominator is nonzero). -/
def E_aa (Ms P R_star Ee : ℚ) (i : ℕ) : ℚ := Ee / aaDenom Ms P R_star i

/-- The pointwise difference `E_dd - E_aa` that the intersection scan inspects. -/
def ddDiff (G T Ms P R_star Ee : ℚ) (i : ℕ) : ℚ :=
  E_dd G T i - E_aa Ms P R_star Ee i

/-- `np.diff(np.sign(E_dd - E_aa))[i] != 0`: the sign of the difference changes
between consecutive samples `i` and `i+1`. -/
def flipAt (G T Ms P R_star Ee : ℚ) (i : ℕ) : Bool :=
  decide (qsign (ddDiff G T Ms P R_star Ee (i + 1)) -
    qsign (ddDiff G T Ms P R_star Ee i) ≠ 0)

/-- First index `< n` satisfying `p`, scanning upward — the behaviour of
`np.argwhere(...).flatten()[0]` on the 199-entry difference-of-signs array. -/
def firstIdx (p : ℕ → Bool) : ℕ → Option ℕ
  | 0 => none
  | n + 1 =>
    match firstIdx p n with
    | some i => some i
    | none => if p n then some n else none

/-- The equilibrium search of the DD-AA script: the first index where the sign
of `E_dd - E_aa` flips yields `(Y_range[idx[0]], E_dd[idx[0]])`; if the signs
never flip the script keeps `(nan, nan)` and the label `Equilibrio no
encontrado`, embedded as `none`. -/
def ddaaEquilibrio (G T Ms P R_star Ee : ℚ) : Option (ℚ × ℚ) :=
  match firstIdx (flipAt G T Ms P R_star Ee) 199 with
  | some i => some (Ygrid i, E_dd G T i)
  | none => none

/-- All numeric outputs of the DD-AA drawing callback: the three sampled
arrays and the equilibrium result. -/
structure DDAAResultado where
  Y_range : List ℚ
  E_ddL : List ℚ
  E_aaL : List ℚ
  eq : Option (ℚ × ℚ)
deriving DecidableEq

/-- The full numeric computation of `dibujar_grafica(G, T, Ms, P, R_star, Ee)`
in the DD-AA script. -/
def ddaaCompute (G T Ms P R_star Ee : ℚ) : DDAAResultado :=
  ⟨(List.range 200).map Ygrid,
   (List.range 200).map (E_dd G T),
   (List.range 200).map (E_aa Ms P R_star Ee),
   ddaaEquilibrio G T Ms P R_star Ee⟩

/-! ## Widget state for the purity claim

The Python scripts wire the drawing callbacks to slider widgets; on every
change `actualizar_grafica` reads the current slider values and recomputes.
The records below model the widget state a callback can see: the slider
values the computation reads, plus a component (`render`) standing for all
the remaining UI state (output widget history, figure handles, …) that the
numeric computation neither reads nor writes. -/

/-- Widget state of the goods-market interface. -/
structure EstadoBienes where
  g0 : ℚ
  t1 : ℚ
  i0 : ℚ
  nx0 : ℚ
  render : ℕ

/-- Widget state of the DD-AA interface. -/
structure EstadoDDAA where
  G : ℚ
  T : ℚ
  Ms : ℚ
  P : ℚ
  R_star : ℚ
  Ee : ℚ
  render : ℕ

/-- `actualizar_grafica` of the goods-market script: reads the slider values
from the widget state and runs the drawing computation on them. -/
def actualizarBienes (s : EstadoBienes) : Except PyErr BienesResultado :=
  mercado_bienes s.g0 s.t1 s.i0 s.nx0

/-- `on_value_change` of the DD-AA script: reads the six slider values from
the widget state and runs the drawing computation on them. -/
def actualizarDDAA (s : EstadoDDAA) : DDAAResultado :=
  ddaaCompute s.G s.T s.Ms s.P s.R_star s.Ee

/-! ## IS-LM joint solver (spec §4.5; no source file for it exists) -/

/-- Parameters of the IS-LM solver, as named in the spec. -/
structure ISLMParams where
  c0 : ℚ
  c1 : ℚ
  T : ℚ
  I0 : ℚ
  b : ℚ
  k : ℚ
  h : ℚ
  P : ℚ
  M0 : ℚ
  G0 : ℚ
  shock_monetario : ℚ
  shock_fiscal : ℚ

/-- Baseline and post-shock IS-LM equilibria. -/
structure ISLMResultado where
  Y_base : ℚ
  i_base : ℚ
  Y_final : ℚ
  i_final : ℚ
deriving DecidableEq

/-- Modelled from the spec: the IS-LM solver of spec §4.5 has no code under
`src/` (the repository file holds only the other four models), so the solver
is modelled from the spec's words: a closed-form simultaneous solution of the
linear IS/LM system — IS: `Y = c0 + c1*(Y - T) + I0 - b*i + G0`, LM:
`M/P = k*Y - h*i` — for the baseline equilibrium `(Y_base, i_base)`, and a
second equilibrium `(Y_final, i_final)` obtained after adding the shocks to
the money supply and to government spending. -/
def islm (p : ISLMParams) : ISLMResultado :=
  let eqm := fun (M G : ℚ) =>
    let Y := (p.c0 - p.c1 * p.T + p.I0 + G + (p.b / p.h) * (M / p.P)) /
      (1 - p.c1 + p.b * p.k / p.h)
    (Y, (p.k * Y - M / p.P) / p.h)
  let base := eqm p.M0 p.G0
  let post := eqm (p.M0 + p.shock_monetario) (p.G0 + p.shock_fiscal)
  ⟨base.1, base.2, post.1, post.2⟩

/-! ## Helper lemmas -/

/-- `firstIdx p n = none` exactly when no index below `n` satisfies `p`. -/
theorem firstIdx_eq_none_iff (p : ℕ → Bool) (n : ℕ) :
    firstIdx p n = none ↔ ∀ j, j < n → p j = false := by
  induction n with
  | zero => simp [firstIdx]
  | succ n ih =>
    rw [firstIdx]
    cases h : firstIdx p n with
    | some k =>
      simp only [reduceCtorEq, false_iff, not_forall]
      have : ¬ ∀ j, j < n → p j = false := by
        intro hall
        rw [ih.mpr hall] at h
        cases h
      push_neg at this
      obtain ⟨j, hj, hpj⟩ := this
      exact ⟨j, Nat.lt_succ_of_lt hj, by simp [hpj]⟩
    | none =>
      have hall := ih.mp h
      by_cases hp : p n = true
      · simp only [hp, if_true, reduceCtorEq, false_iff, not_forall]
        exact ⟨n, Nat.lt_succ_self n, by simp [hp]⟩
      · rw [if_neg hp]
        simp only [true_iff]
        intro j hj
        rcases Nat.lt_succ_iff_lt_or_eq.mp hj with h' | rfl
        · exact hall j h'
        · exact Bool.eq_false_iff.mpr hp

/-- `firstIdx p n = some i` exactly when `i` is the least index below `n`
satisfying `p`. -/
theorem firstIdx_eq_some_iff (p : ℕ → Bool) (n : ℕ) (i : ℕ) :
    firstIdx p n = some i ↔
      i < n ∧ p i = true ∧ ∀ j, j < i → p j = false := by
  induction n generalizing i with
  | zero => simp [firstIdx]
  | succ n ih =>
    rw [firstIdx]
    cases h : firstIdx p n with
    | some k =>
      obtain ⟨hk, hpk, hkmin⟩ := (ih k).mp h
      simp only [Option.some.injEq]
      constructor
      · rintro rfl
        exact ⟨Nat.lt_succ_of_lt hk, hpk, hkmin⟩
      · rintro ⟨hi, hpi, himin⟩
        rcases Nat.lt_trichotomy k i with hlt | rfl | hgt
        · exact absurd hpk (by simp [himin k hlt])
        · rfl
        · exact absurd hpi (by simp [hkmin i hgt])
    | none =>
      have hall := (firstIdx_eq_none_iff p n).mp h
      by_cases hp : p n = true
      · rw [if_pos hp]
        simp only [Option.some.injEq]
        constructor
        · rintro rfl
          exact ⟨Nat.lt_succ_self n, hp, hall⟩
        · rintro ⟨hi, hpi, -⟩
          rcases Nat.lt_succ_iff_lt_or_eq.mp hi with h' | rfl
          · exact absurd hpi (by simp [hall i h'])
          · rfl
      · rw [if_neg hp]
        simp only [reduceCtorEq, false_iff, not_and]
        rintro hi hpi
        rcases Nat.lt_succ_iff_lt_or_eq.mp hi with h' | rfl
        · exact absurd hpi (by simp [hall i h'])
        · exact absurd hpi (by simp [Bool.eq_false_iff.mpr hp])

/-- The Boolean flip test holds exactly when the `np.sign` values of
consecutive differences disagree. -/
theorem flipAt_eq_true_iff (G T Ms P R_star Ee : ℚ) (i : ℕ) :
    flipAt G T Ms P R_star Ee i = true ↔
      qsign (ddDiff G T Ms P R_star Ee (i + 1)) ≠
        qsign (ddDiff G T Ms P R_star Ee i) := by
  simp [flipAt, sub_ne_zero]

/-- The Boolean flip test fails exactly when the `np.sign` values of
consecutive differences agree. -/
theorem flipAt_eq_false_iff (G T Ms P R_star Ee : ℚ) (i : ℕ) :
    flipAt G T Ms P R_star Ee i = false ↔
      qsign (ddDiff G T Ms P R_star Ee (i + 1)) =
        qsign (ddDiff G T Ms P R_star Ee i) := by
  simp [flipAt, sub_eq_zero]

theorem qsign_of_pos {x : ℚ} (h : 0 < x) : qsign x = 1 := by
  simp [qsign, h, not_lt_of_gt h]

theorem qsign_of_neg {x : ℚ} (h : x < 0) : qsign x = -1 := by
  simp [qsign, h]

theorem qsign_of_zero {x : ℚ} (h : x = 0) : qsign x = 0 := by
  simp [qsign, h]

/-- When the `np.sign` values of `x` and `y` disagree, `x` is no larger in
magnitude than the gap between `y` and `x`. -/
theorem abs_le_abs_sub_of_qsign_ne {x y : ℚ} (h : qsign y ≠ qsign x) :
    |x| ≤ |y - x| := by
  rcases lt_trichotomy x 0 with hx | hx | hx
  · have hy : 0 ≤ y := by
      by_contra hy
      push_neg at hy
      exact h (by rw [qsign_of_neg hy, qsign_of_neg hx])
    rw [abs_of_neg hx, abs_of_pos (by linarith)]
    linarith
  · simp [hx]
  · have hy : y ≤ 0 := by
      by_contra hy
      push_neg at hy
      exact h (by rw [qsign_of_pos hy, qsign_of_pos hx])
    rw [abs_of_pos hx, abs_of_neg (by linarith)]
    linarith

/-- Every sampled income lies at or above the lower end of the grid. -/
theorem Ygrid_ge (i : ℕ) : (500 : ℚ) ≤ Ygrid i := by
  have : (0 : ℚ) ≤ (i : ℚ) * (2000 / 199) := by positivity
  simp only [Ygrid]
  linarith

/-- Characterization of a found DD-AA equilibrium: the reported pair comes
from the least grid index at which the sign of `E_dd - E_aa` changes. -/
theorem ddaaEquilibrio_eq_some_iff (G T Ms P R_star Ee y e : ℚ) :
    ddaaEquilibrio G T Ms P R_star Ee = some (y, e) ↔
      ∃ i, i < 199 ∧ flipAt G T Ms P R_star Ee i = true ∧
        (∀ j, j < i → flipAt G T Ms P R_star Ee j = false) ∧
        y = Ygrid i ∧ e = E_dd G T i := by
  unfold ddaaEquilibrio
  cases h : firstIdx (flipAt G T Ms P R_star Ee) 199 with
  | none =>
    have hall := (firstIdx_eq_none_iff _ _).mp h
    simp only [reduceCtorEq, false_iff, not_exists]
    rintro i ⟨hi, hflip, -⟩
    rw [hall i hi] at hflip
    cases hflip
  | some k =>
    obtain ⟨hk, hpk, hkmin⟩ := (firstIdx_eq_some_iff _ _ _).mp h
    simp only [Option.some.injEq, Prod.mk.injEq]
    constructor
    · rintro ⟨rfl, rfl⟩
      exact ⟨k, hk, hpk, hkmin, rfl, rfl⟩
    · rintro ⟨i, hi, hpi, himin, rfl, rfl⟩
      rcases Nat.lt_trichotomy k i with hlt | rfl | hgt
      · exact absurd hpk (by simp [himin k hlt])
      · exact ⟨rfl, rfl⟩
      · exact absurd hpi (by simp [hkmin i hgt])

/-- A DD-AA run reports no equilibrium exactly when the sign of the
difference never changes along the grid. -/
theorem ddaaEquilibrio_eq_none_iff (G T Ms P R_star Ee : ℚ) :
    ddaaEquilibrio G T Ms P R_star Ee = none ↔
      ∀ i, i < 199 → flipAt G T Ms P R_star Ee i = false := by
  unfold ddaaEquilibrio
  cases h : firstIdx (flipAt G T Ms P R_star Ee) 199 with
  | none =>
    simpa using (firstIdx_eq_none_iff _ _).mp h
  | some k =>
    obtain ⟨hk, hpk, -⟩ := (firstIdx_eq_some_iff _ _ _).mp h
    simp only [reduceCtorEq, false_iff, not_forall]
    exact ⟨k, by simp [hk, hpk]⟩

/-! ### Concrete parameter sets used as witnesses and counterexamples -/

/-- With the default slider values the AA denominator never vanishes on the
grid, so the embedding of the numpy division is exact there. -/
theorem defaults_aaDenom_ne (i : ℕ) (_hi : i < 200) : aaDenom 300 1 5 i ≠ 0 := by
  have hy := Ygrid_ge i
  have hpos : (0 : ℚ) < aaDenom 300 1 5 i := by
    simp only [aaDenom, aaR]
    linarith
  exact ne_of_gt hpos

/-- At `Ms = 0, P = 1, R_star = 1701/16` the AA denominator is nonzero at
each of the 200 sampled incomes: it vanishes only at income 505, which is
not a grid point. -/
theorem steep_aaDenom_ne (i : ℕ) (_hi : i < 200) : aaDenom 0 1 (1701/16) i ≠ 0 := by
  intro h
  simp only [aaDenom, aaR, Ygrid] at h
  have h2 : ((400 * i : ℕ) : ℚ) = ((199 : ℕ) : ℚ) := by
    push_cast
    field_simp at h
    linarith
  have h3 : 400 * i = 199 := Nat.cast_injective h2
  omega

/-- At `Ms = 0, P = 1, R_star = 100` the AA denominator `Ygrid i / 8000` is
positive at every sampled income. -/
theorem touch_aaDenom_ne (i : ℕ) (_hi : i < 200) : aaDenom 0 1 100 i ≠ 0 := by
  have hy := Ygrid_ge i
  have hpos : (0 : ℚ) < aaDenom 0 1 100 i := by
    simp only [aaDenom, aaR]
    linarith
  exact ne_of_gt hpos

/-- At the steep parameter set the difference starts hugely positive (the AA
denominator at grid point 0 is `-1/1600`, so `E_aa = -1600`), turns negative
at grid point 1, and the scan therefore reports the equilibrium at index 0. -/
theorem ddaaEquilibrio_steep :
    ddaaEquilibrio 200 (1/5) 0 1 (1701/16) 1 = some (500, -2/5) := by
  rw [ddaaEquilibrio_eq_some_iff]
  have h0 : (0 : ℚ) < ddDiff 200 (1/5) 0 1 (1701/16) 1 0 := by
    simp only [ddDiff, E_dd, E_aa, aaDenom, aaR, Ygrid, ddMultInv, ddGastoAut]
    norm_num
  have h1 : ddDiff 200 (1/5) 0 1 (1701/16) 1 1 < 0 := by
    simp only [ddDiff, E_dd, E_aa, aaDenom, aaR, Ygrid, ddMultInv, ddGastoAut]
    norm_num
  refine ⟨0, by norm_num, ?_, fun j hj => absurd hj (Nat.not_lt_zero j), ?_, ?_⟩
  · rw [flipAt_eq_true_iff]
    rw [show (0 + 1) = 1 from rfl, qsign_of_neg h1, qsign_of_pos h0]
    norm_num
  · simp only [Ygrid]
    norm_num
  · simp only [E_dd, Ygrid, ddMultInv, ddGastoAut]
    norm_num

/-- At the tangential parameter set (`G` tuned so that the difference is
exactly zero at grid point 1 while positive at grid points 0 and 2) the scan
reports the equilibrium at index 0, the sample before the touch. -/
theorem ddaaEquilibrio_touch :
    ddaaEquilibrio (19387560/40397) (1/5) 0 1 100 (-1/5) =
      some (500, -646202/201985) := by
  rw [ddaaEquilibrio_eq_some_iff]
  have h0 : (0 : ℚ) < ddDiff (19387560/40397) (1/5) 0 1 100 (-1/5) 0 := by
    simp only [ddDiff, E_dd, E_aa, aaDenom, aaR, Ygrid, ddMultInv, ddGastoAut]
    norm_num
  have h1 : ddDiff (19387560/40397) (1/5) 0 1 100 (-1/5) 1 = 0 := by
    simp only [ddDiff, E_dd, E_aa, aaDenom, aaR, Ygrid, ddMultInv, ddGastoAut]
    norm_num
  refine ⟨0, by norm_num, ?_, fun j hj => absurd hj (Nat.not_lt_zero j), ?_, ?_⟩
  · rw [flipAt_eq_true_iff]
    rw [show (0 + 1) = 1 from rfl, qsign_of_zero h1, qsign_of_pos h0]
    norm_num
  · simp only [Ygrid]
    norm_num
  · simp only [E_dd, Ygrid, ddMultInv, ddGastoAut]
    norm_num

/-- The `np.sign` values around the tangential touch: positive at grid point
0, exactly zero at grid point 1, positive again at grid point 2. -/
theorem touch_qsigns :
    qsign (ddDiff (19387560/40397) (1/5) 0 1 100 (-1/5) 0) = 1 ∧
    qsign (ddDiff (19387560/40397) (1/5) 0 1 100 (-1/5) 1) = 0 ∧
    qsign (ddDiff (19387560/40397) (1/5) 0 1 100 (-1/5) 2) = 1 := by
  refine ⟨qsign_of_pos ?_, qsign_of_zero ?_, qsign_of_pos ?_⟩ <;>
    · simp only [ddDiff, E_dd, E_aa, aaDenom, aaR, Ygrid, ddMultInv, ddGastoAut]
      norm_num

/-! ## Claim theorems -/

/-- Claim C1: for every parameter set (with a nonzero price level, and the AA
denominator nonzero at every grid point, where the embedding of the numpy
division is exact), the DD-AA solver reports as equilibrium exactly the pair
`(Y, E) = (Ygrid i, E_dd i)` at the least index `i` of the 200-point income
grid on `[500, 2500]` where the sign of the pointwise difference
`E_dd - E_aa` changes between consecutive samples — even if the curves cross
multiple times — and reports the distinguished no-equilibrium outcome
exactly when no sign change occurs over the sampled domain. -/
theorem ddaa_scan_reports_first_sign_change (G T Ms P R_star Ee : ℚ)
    (_hP : P ≠ 0) (_hdef : ∀ i, i < 200 → aaDenom Ms P R_star i ≠ 0) :
    (∀ y e, ddaaEquilibrio G T Ms P R_star Ee = some (y, e) ↔
      ∃ i, i < 199 ∧
        qsign (ddDiff G T Ms P R_star Ee (i + 1)) ≠
          qsign (ddDiff G T Ms P R_star Ee i) ∧
        (∀ j, j < i → qsign (ddDiff G T Ms P R_star Ee (j + 1)) =
          qsign (ddDiff G T Ms P R_star Ee j)) ∧
        y = Ygrid i ∧ e = E_dd G T i) ∧
    (ddaaEquilibrio G T Ms P R_star Ee = none ↔
      ∀ i, i < 199 → qsign (ddDiff G T Ms P R_star Ee (i + 1)) =
        qsign (ddDiff G T Ms P R_star Ee i)) := by
  constructor
  · intro y e
    rw [ddaaEquilibrio_eq_some_iff]
    constructor
    · rintro ⟨i, hi, hflip, hmin, hy, he⟩
      exact ⟨i, hi, (flipAt_eq_true_iff _ _ _ _ _ _ _).mp hflip,
        fun j hj => (flipAt_eq_false_iff _ _ _ _ _ _ _).mp (hmin j hj), hy, he⟩
    · rintro ⟨i, hi, hflip, hmin, hy, he⟩
      exact ⟨i, hi, (flipAt_eq_true_iff _ _ _ _ _ _ _).mpr hflip,
        fun j hj => (flipAt_eq_false_iff _ _ _ _ _ _ _).mpr (hmin j hj), hy, he⟩
  · rw [ddaaEquilibrio_eq_none_iff]
    constructor
    · intro hall i hi
      exact (flipAt_eq_false_iff _ _ _ _ _ _ _).mp (hall i hi)
    · intro hall i hi
      exact (flipAt_eq_false_iff _ _ _ _ _ _ _).mpr (hall i hi)

/-- Witness for claim C1 at the DD-AA script's default slider values
`G = 200, T = 0.2, Ms = 300, P = 1, R_star = 5, Ee = 1`. -/
theorem ddaa_scan_reports_first_sign_change_witness :
    (∀ y e, ddaaEquilibrio 200 (1/5) 300 1 5 1 = some (y, e) ↔
      ∃ i, i < 199 ∧
        qsign (ddDiff 200 (1/5) 300 1 5 1 (i + 1)) ≠
          qsign (ddDiff 200 (1/5) 300 1 5 1 i) ∧
        (∀ j, j < i → qsign (ddDiff 200 (1/5) 300 1 5 1 (j + 1)) =
          qsign (ddDiff 200 (1/5) 300 1 5 1 j)) ∧
        y = Ygrid i ∧ e = E_dd 200 (1/5) i) ∧
    (ddaaEquilibrio 200 (1/5) 300 1 5 1 = none ↔
      ∀ i, i < 199 → qsign (ddDiff 200 (1/5) 300 1 5 1 (i + 1)) =
        qsign (ddDiff 200 (1/5) 300 1 5 1 i)) :=
  ddaa_scan_reports_first_sign_change 200 (1/5) 300 1 5 1 (by norm_num)
    defaults_aaDenom_ne

/-- Claim C2 (counterexample): at the degenerate price level `P = 0` the
money-market computation raises `ZeroDivisionError` (embedded as
`Except.error`), and at the degenerate tax rate `t1 = -2/3`, which zeroes
`1 - c1*(1-t1)`, the goods-market computation does the same — neither
detects the condition nor returns a distinguished in-band undefined value. -/
theorem degenerate_params_raise_cex :
    mercado_dinero 150 800 0 = Except.error PyErr.zeroDivision ∧
    mercado_bienes 200 (-2/3) 150 100 = Except.error PyErr.zeroDivision := by
  constructor
  · simp [mercado_dinero, pydiv, Bind.bind, Except.bind]
  · have h : (1 : ℚ) - 3/5 * (1 - (-2/3)) = 0 := by norm_num
    simp only [mercado_bienes, pydiv, if_pos h, Bind.bind, Except.bind]

/-- Claim C2 (amended): the goods- and money-market solvers do not detect
their zero-denominator conditions: whenever `1 - c1*(1-t1) = 0`, and
whenever `P = 0`, the unguarded Python scalar division raises a
`ZeroDivisionError` arithmetic fault instead of producing a distinguished
undefined result value. -/
theorem degenerate_params_raise (g0 t1 i0 nx0 Ms Y P : ℚ) :
    (1 - (3/5) * (1 - t1) = 0 →
      mercado_bienes g0 t1 i0 nx0 = Except.error PyErr.zeroDivision) ∧
    (P = 0 → mercado_dinero Ms Y P = Except.error PyErr.zeroDivision) := by
  constructor
  · intro h
    simp only [mercado_bienes, pydiv, if_pos h, Bind.bind, Except.bind]
  · intro h
    simp only [mercado_dinero, pydiv, if_pos h, Bind.bind, Except.bind]

/-- Witness for the amended claim C2 at `t1 = -2/3` and `P = 0`. -/
theorem degenerate_params_raise_witness :
    mercado_bienes 200 (-2/3) 150 100 = Except.error PyErr.zeroDivision ∧
    mercado_dinero 150 800 0 = Except.error PyErr.zeroDivision :=
  ⟨(degenerate_params_raise 200 (-2/3) 150 100 150 800 0).1 (by norm_num),
   (degenerate_params_raise 200 (-2/3) 150 100 150 800 0).2 rfl⟩

/-- Claim C3: for all `(g0, t1, i0, nx0)` with `t1 ∈ (0,1)` and the fixed
constants `c0 = 50`, `c1 = 0.6`, the goods-market computation succeeds with
multiplier `1/(1 - c1*(1-t1))`, autonomous spending `A = c0+i0+g0+nx0`,
equilibrium income exactly `A / (1 - c1*(1-t1))`, and the
aggregate-expenditure curve `DA(Y) = A + c1*(1-t1)*Y` sampled at 100 points
over `[0, 2500]`. -/
theorem bienes_equilibrio_formula (g0 t1 i0 nx0 : ℚ)
    (h0 : 0 < t1) (h1 : t1 < 1) :
    mercado_bienes g0 t1 i0 nx0 = Except.ok
      ⟨1 / (1 - (3/5) * (1 - t1)),
       50 + i0 + g0 + nx0,
       (50 + i0 + g0 + nx0) / (1 - (3/5) * (1 - t1)),
       linspace 0 2500 100,
       (linspace 0 2500 100).map
         (fun Y => (50 + i0 + g0 + nx0) + (3/5) * (1 - t1) * Y)⟩ := by
  have hden : (0 : ℚ) < 1 - (3/5) * (1 - t1) := by linarith
  simp only [mercado_bienes, pydiv, if_neg (ne_of_gt hden), Bind.bind,
    Except.bind, Except.ok.injEq, BienesResultado.mk.injEq]
  rw [one_div_mul_eq_div]
  rfl

/-- Witness for claim C3 at the spec's example
`g0 = 200, t1 = 0.2, i0 = 150, nx0 = 100`, whose equilibrium income is
`12500/13 ≈ 961.5`. -/
theorem bienes_equilibrio_formula_witness :
    mercado_bienes 200 (1/5) 150 100 = Except.ok
      ⟨1 / (1 - (3/5) * (1 - 1/5)),
       50 + 150 + 200 + 100,
       (50 + 150 + 200 + 100) / (1 - (3/5) * (1 - 1/5)),
       linspace 0 2500 100,
       (linspace 0 2500 100).map
         (fun Y => (50 + 150 + 200 + 100) + (3/5) * (1 - 1/5) * Y)⟩ ∧
    ((50 : ℚ) + 150 + 200 + 100) / (1 - (3/5) * (1 - 1/5)) = 12500/13 :=
  ⟨bienes_equilibrio_formula 200 (1/5) 150 100 (by norm_num) (by norm_num),
   by norm_num⟩

/-- Claim C4 (counterexample): the non-linear parity inside the DD-AA script
has no singularity branch: at `Ms = 375, P = 1, R_star = 100, Ee = 1` the
denominator `1 + (R - R_star)/100` at grid index 0 equals `-1/8 ≤ 0`, yet
the sampled AA value is the ordinary finite number `-8` — inside the sampled
AA curve of the full computation — with no tagged undefined result. -/
theorem ddaa_singularity_unguarded_cex :
    aaDenom 375 1 100 0 ≤ 0 ∧ E_aa 375 1 100 1 0 = -8 ∧
    (-8 : ℚ) ∈ (ddaaCompute 200 (1/5) 375 1 100 1).E_aaL := by
  have he : E_aa 375 1 100 1 0 = -8 := by
    simp only [E_aa, aaDenom, aaR, Ygrid]
    norm_num
  refine ⟨?_, he, ?_⟩
  · simp only [aaDenom, aaR, Ygrid]
    norm_num
  · simp only [ddaaCompute]
    exact List.mem_map.mpr ⟨0, List.mem_range.mpr (by norm_num), he⟩

/-- Claim C4 (amended): only the linearized FX solver implements the policy:
its equilibrium is tagged undefined (`none`, the embedded `nan`) exactly
when `m = 0` and is the inverted-parity value otherwise; the non-linear
variant inside the DD-AA solver performs the division unguarded and, when
its denominator is negative, produces ordinary finite values. -/
theorem fx_singularity_policy_amended (R R_star Ee m : ℚ) :
    ((mercado_divisas R R_star Ee m).E_eq =
      if m = 0 then none else some (Ee - (R - R_star) / m)) ∧
    aaDenom 375 1 100 0 ≤ 0 ∧ E_aa 375 1 100 1 0 = -8 := by
  refine ⟨?_, ?_, ?_⟩
  · by_cases hm : m = 0
    · simp [mercado_divisas, hm]
    · simp [mercado_divisas, hm]
  · simp only [aaDenom, aaR, Ygrid]
    norm_num
  · simp only [E_aa, aaDenom, aaR, Ygrid]
    norm_num

/-- Claim C5: for all `(Ms, Y, P)` with `P ≠ 0` and the fixed constants
`k = 0.5`, `h = 10`, the money-market computation succeeds with real money
supply `Ms/P`, equilibrium interest rate exactly `(k*Y - Ms/P)/h`, and the
money-demand curve `Md(i) = k*Y - h*i` sampled at 100 points over `[0, 50]`. -/
theorem dinero_equilibrio_formula (Ms Y P : ℚ) (hP : P ≠ 0) :
    mercado_dinero Ms Y P = Except.ok
      ⟨Ms / P, ((1/2) * Y - Ms / P) / 10, linspace 0 50 100,
       (linspace 0 50 100).map (fun i => (1/2) * Y - 10 * i)⟩ := by
  simp only [mercado_dinero, pydiv, if_neg hP, Bind.bind, Except.bind]
  rfl

/-- Witness for claim C5 at the spec's example `Ms = 150, Y = 800, P = 1`,
whose equilibrium interest rate is `25`. -/
theorem dinero_equilibrio_formula_witness :
    mercado_dinero 150 800 1 = Except.ok
      ⟨150 / 1, ((1/2) * 800 - 150 / 1) / 10, linspace 0 50 100,
       (linspace 0 50 100).map (fun i => (1/2) * 800 - 10 * i)⟩ ∧
    ((1/2 : ℚ) * 800 - 150 / 1) / 10 = 25 :=
  ⟨dinero_equilibrio_formula 150 800 1 (by norm_num), by norm_num⟩

/-- Claim C6: for all `(R, R_star, Ee, m)` with `m ≠ 0` the linearized FX
solver returns the equilibrium exchange rate `E_eq = Ee - (R - R_star)/m`,
which indeed inverts `R_ext(E) = R_star + m*(Ee - E)` back to `R`; and the
result is the undefined sentinel when `m = 0`. -/
theorem divisas_equilibrio_formula (R R_star Ee m : ℚ) :
    (m ≠ 0 → (mercado_divisas R R_star Ee m).E_eq =
        some (Ee - (R - R_star) / m) ∧
      R_star + m * (Ee - (Ee - (R - R_star) / m)) = R) ∧
    (m = 0 → (mercado_divisas R R_star Ee m).E_eq = none) := by
  constructor
  · intro hm
    constructor
    · simp [mercado_divisas, hm]
    · field_simp
  · intro hm
    simp [mercado_divisas, hm]

/-- Witness for claim C6 at `R = 5, R_star = 6, Ee = 1` with slope `m = 2`
(and, for the degenerate branch, `m = 0`). -/
theorem divisas_equilibrio_formula_witness :
    ((mercado_divisas 5 6 1 2).E_eq = some (1 - ((5 : ℚ) - 6) / 2) ∧
      (6 : ℚ) + 2 * (1 - (1 - ((5 : ℚ) - 6) / 2)) = 5) ∧
    (mercado_divisas 5 6 1 0).E_eq = none :=
  ⟨(divisas_equilibrio_formula 5 6 1 2).1 (by norm_num),
   (divisas_equilibrio_formula 5 6 1 0).2 rfl⟩

/-- Claim C7 (counterexample): at `G = 200, T = 1/5, Ms = 0, P = 1,
R_star = 1701/16, Ee = 1` the AA denominator changes sign between grid
points 0 and 1 (without vanishing at any grid point), the solver reports the
equilibrium `(500, -2/5)` at grid index 0, and there
`|E_dd - E_aa| = 1599.6`, far more than the sample spacing `2000/199`. -/
theorem ddaa_gap_exceeds_spacing_cex :
    ddaaEquilibrio 200 (1/5) 0 1 (1701/16) 1 = some (500, -2/5) ∧
    (500 : ℚ) = Ygrid 0 ∧ (-2/5 : ℚ) = E_dd 200 (1/5) 0 ∧
    (∀ i, i < 200 → aaDenom 0 1 (1701/16) i ≠ 0) ∧
    2000 / 199 < |E_dd 200 (1/5) 0 - E_aa 0 1 (1701/16) 1 0| := by
  have hval : E_dd 200 (1/5) 0 - E_aa 0 1 (1701/16) 1 0 = 7998/5 := by
    simp only [E_dd, E_aa, aaDenom, aaR, Ygrid, ddMultInv, ddGastoAut]
    norm_num
  refine ⟨ddaaEquilibrio_steep, ?_, ?_, steep_aaDenom_ne, ?_⟩
  · simp only [Ygrid]
    norm_num
  · simp only [E_dd, Ygrid, ddMultInv, ddGastoAut]
    norm_num
  · rw [hval, abs_of_pos (by norm_num)]
    norm_num

/-- Claim C7 (amended): whenever the DD-AA solver reports an equilibrium
`(y, e)` (with a nonzero price level and the AA denominator nonzero on the
grid), it lies at a grid index `i` across which the sign of the difference
changes, and the curve gap there is bounded by the jump of the difference
between the two consecutive samples — not by the income-grid spacing. -/
theorem ddaa_reported_gap_bound (G T Ms P R_star Ee y e : ℚ) (_hP : P ≠ 0)
    (_hdef : ∀ i, i < 200 → aaDenom Ms P R_star i ≠ 0)
    (h : ddaaEquilibrio G T Ms P R_star Ee = some (y, e)) :
    ∃ i, i < 199 ∧ y = Ygrid i ∧ e = E_dd G T i ∧
      |E_dd G T i - E_aa Ms P R_star Ee i| ≤
        |ddDiff G T Ms P R_star Ee (i + 1) - ddDiff G T Ms P R_star Ee i| := by
  obtain ⟨i, hi, hflip, -, hy, he⟩ :=
    (ddaaEquilibrio_eq_some_iff _ _ _ _ _ _ _ _).mp h
  refine ⟨i, hi, hy, he, ?_⟩
  exact abs_le_abs_sub_of_qsign_ne ((flipAt_eq_true_iff _ _ _ _ _ _ _).mp hflip)

/-- Witness for the amended claim C7 at the steep parameter set, where the
solver reports `(500, -2/5)`. -/
theorem ddaa_reported_gap_bound_witness :
    ∃ i, i < 199 ∧ (500 : ℚ) = Ygrid i ∧ (-2/5 : ℚ) = E_dd 200 (1/5) i ∧
      |E_dd 200 (1/5) i - E_aa 0 1 (1701/16) 1 i| ≤
        |ddDiff 200 (1/5) 0 1 (1701/16) 1 (i + 1) -
          ddDiff 200 (1/5) 0 1 (1701/16) 1 i| :=
  ddaa_reported_gap_bound 200 (1/5) 0 1 (1701/16) 1 500 (-2/5) (by norm_num)
    steep_aaDenom_ne ddaaEquilibrio_steep

/-- Claim C8: the solver computations are pure functions of the slider
values they read: two widget states that agree on the slider values — but
may differ in any other UI state component — produce identical equilibrium
values and identical sampled curves, for the goods-market and the DD-AA
callbacks. -/
theorem solver_noninterference (s₁ s₂ : EstadoBienes) (u₁ u₂ : EstadoDDAA)
    (hg : s₁.g0 = s₂.g0) (ht : s₁.t1 = s₂.t1) (hi : s₁.i0 = s₂.i0)
    (hn : s₁.nx0 = s₂.nx0) (hG : u₁.G = u₂.G) (hT : u₁.T = u₂.T)
    (hM : u₁.Ms = u₂.Ms) (hPr : u₁.P = u₂.P) (hR : u₁.R_star = u₂.R_star)
    (hE : u₁.Ee = u₂.Ee) :
    actualizarBienes s₁ = actualizarBienes s₂ ∧
    actualizarDDAA u₁ = actualizarDDAA u₂ := by
  unfold actualizarBienes actualizarDDAA
  rw [hg, ht, hi, hn, hG, hT, hM, hPr, hR, hE]
  exact ⟨rfl, rfl⟩

/-- Witness for claim C8: widget states differing only in the extra UI
component produce identical outputs. -/
theorem solver_noninterference_witness :
    actualizarBienes ⟨200, 1/5, 150, 100, 0⟩ =
      actualizarBienes ⟨200, 1/5, 150, 100, 7⟩ ∧
    actualizarDDAA ⟨200, 1/5, 300, 1, 5, 1, 0⟩ =
      actualizarDDAA ⟨200, 1/5, 300, 1, 5, 1, 3⟩ :=
  solver_noninterference ⟨200, 1/5, 150, 100, 0⟩ ⟨200, 1/5, 150, 100, 7⟩
    ⟨200, 1/5, 300, 1, 5, 1, 0⟩ ⟨200, 1/5, 300, 1, 5, 1, 3⟩
    rfl rfl rfl rfl rfl rfl rfl rfl rfl rfl

/-- Claim C9: the IS-LM solver is deterministic — equal parameter records
give equal results — and when both shock parameters are zero the post-shock
equilibrium coincides with the baseline equilibrium. -/
theorem islm_shock_idempotence (p q : ISLMParams) (hpq : p = q)
    (hm : p.shock_monetario = 0) (hf : p.shock_fiscal = 0) :
    islm p = islm q ∧ (islm p).Y_final = (islm p).Y_base ∧
      (islm p).i_final = (islm p).i_base := by
  subst hpq
  refine ⟨rfl, ?_, ?_⟩ <;> simp [islm, hm, hf]

/-- Witness for claim C9 at a concrete zero-shock parameter record. -/
theorem islm_shock_idempotence_witness :
    islm ⟨50, 3/5, 100, 150, 10, 1/2, 10, 1, 300, 200, 0, 0⟩ =
      islm ⟨50, 3/5, 100, 150, 10, 1/2, 10, 1, 300, 200, 0, 0⟩ ∧
    (islm ⟨50, 3/5, 100, 150, 10, 1/2, 10, 1, 300, 200, 0, 0⟩).Y_final =
      (islm ⟨50, 3/5, 100, 150, 10, 1/2, 10, 1, 300, 200, 0, 0⟩).Y_base ∧
    (islm ⟨50, 3/5, 100, 150, 10, 1/2, 10, 1, 300, 200, 0, 0⟩).i_final =
      (islm ⟨50, 3/5, 100, 150, 10, 1/2, 10, 1, 300, 200, 0, 0⟩).i_base :=
  islm_shock_idempotence _ _ rfl rfl rfl

/-- Claim C10 (counterexample): at the tangential parameter set the sampled
difference is exactly zero at grid index 1 with the same positive sign at
grid indices 0 and 2; an equilibrium is indeed reported (not "no equilibrium
found"), but at income `500 = Ygrid 0`, the sample before the touch — not at
the touch point `Ygrid 1`. -/
theorem ddaa_touch_reported_before_cex :
    qsign (ddDiff (19387560/40397) (1/5) 0 1 100 (-1/5) 1) = 0 ∧
    qsign (ddDiff (19387560/40397) (1/5) 0 1 100 (-1/5) 0) = 1 ∧
    qsign (ddDiff (19387560/40397) (1/5) 0 1 100 (-1/5) 2) = 1 ∧
    ddaaEquilibrio (19387560/40397) (1/5) 0 1 100 (-1/5) =
      some (500, -646202/201985) ∧
    (500 : ℚ) ≠ Ygrid 1 := by
  obtain ⟨h0, h1, h2⟩ := touch_qsigns
  refine ⟨h1, h0, h2, ddaaEquilibrio_touch, ?_⟩
  simp only [Ygrid]
  norm_num

/-- Claim C10 (amended): if the sampled difference has `np.sign` zero at a
grid index and a nonzero sign at the next index (with a nonzero price level
and the AA denominator nonzero on the grid), then the DD-AA solver reports
an equilibrium — the tangential touch is detected, not reported as "no
equilibrium found" — though at the first index where consecutive sign values
differ, which may be the sample before the touch rather than the touch
sample itself. -/
theorem ddaa_touch_detected (G T Ms P R_star Ee : ℚ) (i : ℕ)
    (hi : i + 1 < 200) (_hP : P ≠ 0)
    (_hdef : ∀ j, j < 200 → aaDenom Ms P R_star j ≠ 0)
    (h0 : qsign (ddDiff G T Ms P R_star Ee i) = 0)
    (hn : qsign (ddDiff G T Ms P R_star Ee (i + 1)) ≠ 0) :
    ∃ y e, ddaaEquilibrio G T Ms P R_star Ee = some (y, e) := by
  have hflip : flipAt G T Ms P R_star Ee i = true :=
    (flipAt_eq_true_iff _ _ _ _ _ _ _).mpr (by rw [h0]; exact hn)
  have hne : ddaaEquilibrio G T Ms P R_star Ee ≠ none := by
    intro hres
    have hfalse :=
      (ddaaEquilibrio_eq_none_iff _ _ _ _ _ _).mp hres i (by omega)
    rw [hflip] at hfalse
    cases hfalse
  obtain ⟨⟨y, e⟩, hpr⟩ := Option.ne_none_iff_exists.mp hne
  exact ⟨y, e, hpr.symm⟩

/-- Witness for the amended claim C10 at the tangential parameter set, with
the touch at grid index 1. -/
theorem ddaa_touch_detected_witness :
    ∃ y e, ddaaEquilibrio (19387560/40397) (1/5) 0 1 100 (-1/5) =
      some (y, e) :=
  ddaa_touch_detected (19387560/40397) (1/5) 0 1 100 (-1/5) 1 (by norm_num)
    (by norm_num) touch_aaDenom_ne touch_qsigns.2.1
    (by rw [show (1 + 1 : ℕ) = 2 from rfl, touch_qsigns.2.2]; norm_num)

end EconDyn
